import Mathlib

/-!
Shallow embedding of selected parts of the pyface repository:

* `src/pyface/qt/__init__.py` — the Qt toolkit-selection shim;
* `src/pyface/data_view/data_models/column_data_model.py` — row-info trees
  and the `ColumnDataModel`;
* `src/pyface/data_view/abstract_value_type.py` — the default methods of
  `AbstractValueType`;
* `src/pyface/color_dialog.py` — the `get_color` convenience function.

Python objects are modelled with value semantics (no aliasing between the
objects held in a model's `data` list); exceptions are modelled with
`Except`; machine-level details (event dispatch, trait observers) are out
of scope of the claims and are not modelled.
-/

namespace Pyface

/-! ## The Qt toolkit-selection shim (`src/pyface/qt/__init__.py`) -/

/-- The candidate (api name, module name) pairs, in source order. -/
def QtAPIs : List (String × String) :=
  [("pyside", "PySide"), ("pyqt5", "PyQt5"), ("pyqt", "PyQt4")]

/-- The ambient process state the shim reads: the set of already loaded
modules (`sys.modules`), the `QT_API` environment variable
(`os.environ.get` returns `None` when unset), and which modules
`importlib.import_module` can load (those for which the call does not
raise `ImportError`). -/
structure QtEnv where
  sys_modules : List String
  qt_api_env : Option String
  importable : String → Bool

/-- Exceptions the module-level shim code can raise. -/
inductive ShimError where
  | importError (msg : String)
  | runtimeError (msg : String)
  deriving DecidableEq, Repr

/-- The outcome of executing the module body of `pyface/qt/__init__.py`
(up to and including the `QT_API` validity check): either an exception, or
normal completion with the final value of `qt_api`.

Faithful to the source, including one subtlety: in the block

```
if qt_api is None:
    for api_name, module in QtAPIs:
        try:
            ... # import the module; qt_api = api_name; break
        except ImportError:
            continue
        else:
            raise ImportError(...)
```

the `else:` clause belongs to the `try` statement, not the `for` loop.  A
try-else only runs when control flows off the end of the `try` suite; here
the suite always ends in `break` (success) or raises `ImportError`
(failure, handled by `continue`), so the `raise ImportError` never
executes, and when no candidate module imports the loop simply finishes
with `qt_api` still `None`.

The `prepare_pyqt4()` call that follows the modelled lines configures sip
APIs when the chosen api is `"pyqt"`; it does not change `qt_api` and is
outside the selection logic the claims address, so it is not modelled. -/
def qtShim (env : QtEnv) : Except ShimError (Option String) :=
  -- `for ... break / else` at module level: first api whose module is in
  -- `sys.modules`, and only when none matches, `os.environ.get("QT_API")`.
  let qt_api : Option String :=
    match QtAPIs.find? (fun p => env.sys_modules.contains p.2) with
    | some p => some p.1
    | none => env.qt_api_env
  match qt_api with
  | none =>
      -- the fallback import loop; the dead `raise ImportError` explained above
      Except.ok ((QtAPIs.find? (fun p => env.importable p.2)).map Prod.fst)
  | some api =>
      if (QtAPIs.map Prod.fst).contains api then
        Except.ok (some api)
      else
        -- the source message uses %r quoting; inner quote marks are elided here
        Except.error (ShimError.runtimeError
          ("Invalid Qt API " ++ api ++ ", valid values are: pyside, pyqt or pyqt5"))

/-! ## Python values and attribute access

Objects held in a `ColumnDataModel.data` list are plain `HasTraits`
instances; the claims exercise them through `xgetattr` / `xsetattr` (from
`traits.trait_base`, an external dependency) and through dictionary item
access.  We model a Python value as: `None`, a string, an integer, an
object with named attributes, or a dictionary with string keys.  Attribute
and item access that would raise in Python is modelled with `Option` /
`Except`. -/

/-- A Python value, as far as the modelled code inspects one. -/
inductive PyValue where
  | vnone
  | vstr (s : String)
  | vint (n : Int)
  | vobj (attrs : List (String × PyValue))
  | vdict (entries : List (String × PyValue))
  deriving Repr

/-- Exceptions raised by the modelled data-model code. -/
inductive PyError where
  | indexError
  | attributeError
  | typeError
  deriving DecidableEq, Repr

/-- `getattr(obj, name)` without a default: `some` the attribute value when
`obj` is an object that has the attribute, `none` when the lookup raises
`AttributeError` (missing attribute, or a value with no modelled
attributes). -/
def getattrOpt (obj : PyValue) (name : String) : Option PyValue :=
  match obj with
  | PyValue.vobj attrs => attrs.lookup name
  | _ => none

/-- `setattr(obj, name, v)`: objects accept (create or overwrite) any named
attribute, every other value raises (`AttributeError` / `TypeError`). -/
def setattrFn (obj : PyValue) (name : String) (v : PyValue) : Option PyValue :=
  match obj with
  | PyValue.vobj attrs => some (PyValue.vobj (setAssoc attrs name v))
  | _ => none
where
  /-- Overwrite the binding of `name` in an association list, or append it. -/
  setAssoc : List (String × PyValue) → String → PyValue → List (String × PyValue)
    | [], k, v => [(k, v)]
    | (k2, v2) :: rest, k, v =>
      if k2 = k then (k, v) :: rest else (k2, v2) :: setAssoc rest k v

/-- Python's `xname.split(".")` on the character list of `xname`: the
(possibly empty) runs of characters between dots.  Splitting the empty
string yields `[""]`, and in general the result is never empty, exactly as
in Python. -/
def splitDots : List Char → List (List Char)
  | [] => [[]]
  | c :: rest =>
    match splitDots rest, decide (c = '.') with
    | r, true => [] :: r
    | [], false => [[c]]
    | h :: t, false => (c :: h) :: t

/-- `xname.split(".")` as a list of strings. -/
def splitName (xname : String) : List String :=
  (splitDots xname.data).map List.asString

/-- `traits.trait_base.xgetattr(object, xname, default)` after `xname` has
been split on dots (Python splits `""` into `[""]`, so the list is never
empty).  For every name but the last: `object = getattr(object, name,
None)`, and when the result is `None` (attribute missing, or present with
value `None`) the default is returned at once.  The last name uses
`getattr(object, name, default)`, so a stored `None` is returned as-is. -/
def xgetattrGo : PyValue → List String → PyValue → PyValue
  | _, [], d => d
  | obj, [n], d => (getattrOpt obj n).getD d
  | obj, n :: n2 :: rest, d =>
    match getattrOpt obj n with
    | none => d
    | some PyValue.vnone => d
    | some v => xgetattrGo v (n2 :: rest) d

/-- `xgetattr(obj, xname, default)`. -/
def xgetattr (obj : PyValue) (xname : String) (d : PyValue) : PyValue :=
  xgetattrGo obj (splitName xname) d

/-- `traits.trait_base.xsetattr(object, xname, value)` after splitting on
dots.  Every name but the last uses `getattr(object, name)` with no
default, raising `AttributeError` when it fails; the final name is set with
`setattr`.  Python mutates the intermediate object in place; with value
semantics the updated intermediate is written back along the path. -/
def xsetattrGo : PyValue → List String → PyValue → Option PyValue
  | _, [], _ => none
  | obj, [n], v => setattrFn obj n v
  | obj, n :: n2 :: rest, v =>
    match getattrOpt obj n with
    | none => none
    | some inner =>
      match xsetattrGo inner (n2 :: rest) v with
      | none => none
      | some inner2 => setattrFn obj n inner2

/-- `xsetattr(obj, xname, v)`: `some` the updated object, `none` when the
call raises `AttributeError`. -/
def xsetattr (obj : PyValue) (xname : String) (v : PyValue) : Option PyValue :=
  xsetattrGo obj (splitName xname) v

/-! ## Row-info trees (`column_data_model.py`)

`AbstractRowInfo` has two concrete subclasses, `HasTraitsRowInfo` (a named,
possibly dotted, trait) and `DictRowInfo` (an item of a dictionary trait).
Both carry a `title`, a list of child `rows`, and a `value` trait name;
`DictRowInfo` adds a `key`.  The `title_type` / `value_type` fields hold
`AbstractValueType` instances used only by `get_value_type` and the trait
observers, which no claim exercises, so they are not embedded. -/

/-- A row-info node: `hasTraitsRow title rows value` embeds
`HasTraitsRowInfo`, `dictRow title rows value key` embeds `DictRowInfo`. -/
inductive RowInfo where
  | hasTraitsRow (title : String) (rows : List RowInfo) (value : String)
  | dictRow (title : String) (rows : List RowInfo) (value : String) (key : String)

/-- The `title` trait of a row-info. -/
def RowInfo.title : RowInfo → String
  | RowInfo.hasTraitsRow t _ _ => t
  | RowInfo.dictRow t _ _ _ => t

/-- The `rows` (children) trait of a row-info. -/
def RowInfo.rows : RowInfo → List RowInfo
  | RowInfo.hasTraitsRow _ rs _ => rs
  | RowInfo.dictRow _ rs _ _ => rs

/-- `HasTraitsRowInfo.get_value`: `xgetattr(obj, self.value, None)`.
`DictRowInfo.get_value`: `xgetattr(obj, self.value, None)` followed by
`data.get(self.key, None)`; when the looked-up `data` is not a dictionary
(in particular when it is the default `None`), the `.get` attribute lookup
raises. -/
def RowInfo.get_value : RowInfo → PyValue → Except PyError PyValue
  | RowInfo.hasTraitsRow _ _ value, obj => Except.ok (xgetattr obj value PyValue.vnone)
  | RowInfo.dictRow _ _ value key, obj =>
    match xgetattr obj value PyValue.vnone with
    | PyValue.vdict entries => Except.ok ((entries.lookup key).getD PyValue.vnone)
    | _ => Except.error PyError.attributeError

/-- Both subclasses implement `can_set_value` as `self.value != ''`. -/
def RowInfo.can_set_value (info : RowInfo) (_obj : PyValue) : Bool :=
  match info with
  | RowInfo.hasTraitsRow _ _ value => value ≠ ""
  | RowInfo.dictRow _ _ value _ => value ≠ ""

/-- `HasTraitsRowInfo.set_value`: returns `False` at once when `self.value`
is falsy (the empty string), otherwise `xsetattr(obj, self.value, value)`
then `True`.  `DictRowInfo.set_value`: `data = xgetattr(obj, self.value,
None)` then `data[self.key] = value` then `True`; when `data` is not a
dictionary the item assignment raises `TypeError` (mutation of the looked
up dictionary is written back along the attribute path).  On success the
pair is (returned boolean, updated object). -/
def RowInfo.set_value : RowInfo → PyValue → PyValue → Except PyError (Bool × PyValue)
  | RowInfo.hasTraitsRow _ _ value, obj, v =>
    if value = "" then Except.ok (false, obj)
    else
      match xsetattr obj value v with
      | some obj2 => Except.ok (true, obj2)
      | none => Except.error PyError.attributeError
  | RowInfo.dictRow _ _ value key, obj, v =>
    match xgetattr obj value PyValue.vnone with
    | PyValue.vdict entries =>
      match xsetattr obj value (PyValue.vdict (setattrFn.setAssoc entries key v)) with
      | some obj2 => Except.ok (true, obj2)
      | none => Except.error PyError.attributeError
    | _ => Except.error PyError.typeError

/-! ## The column data model (`column_data_model.py`) -/

/-- `ColumnDataModel`: a list of objects shown as columns, and a row-info
tree describing the rows.  The `index_manager` trait only serves the
toolkit layer and is not embedded. -/
structure ColumnDataModel where
  data : List PyValue
  row_info : RowInfo

/-- `ColumnDataModel._row_info_object`: walk `row_info.rows[index]` along
the row path; an out-of-range index raises `IndexError` (`none`). -/
def rowInfoObject : RowInfo → List Nat → Option RowInfo
  | info, [] => some info
  | info, i :: rest =>
    match info.rows.get? i with
    | some child => rowInfoObject child rest
    | none => none

/-- `ColumnDataModel.get_column_count`. -/
def ColumnDataModel.get_column_count (m : ColumnDataModel) (_row : List Nat) : Nat :=
  m.data.length

/-- `ColumnDataModel.can_have_children`: `True` for the empty (root) row
path, otherwise whether the addressed row-info has children. -/
def ColumnDataModel.can_have_children (m : ColumnDataModel) (row : List Nat) :
    Except PyError Bool :=
  if row.length = 0 then Except.ok true
  else
    match rowInfoObject m.row_info row with
    | some info => Except.ok (decide (info.rows.length ≠ 0))
    | none => Except.error PyError.indexError

/-- `ColumnDataModel.get_row_count`: the child count of the addressed
row-info. -/
def ColumnDataModel.get_row_count (m : ColumnDataModel) (row : List Nat) :
    Except PyError Nat :=
  match rowInfoObject m.row_info row with
  | some info => Except.ok info.rows.length
  | none => Except.error PyError.indexError

/-- `ColumnDataModel.get_value`: the row-info's title for the empty column
path, otherwise the row-info's `get_value` applied to `self.data[column[0]]`
(an out-of-range first column index raises `IndexError`). -/
def ColumnDataModel.get_value (m : ColumnDataModel) (row column : List Nat) :
    Except PyError PyValue :=
  match rowInfoObject m.row_info row with
  | none => Except.error PyError.indexError
  | some info =>
    match column with
    | [] => Except.ok (PyValue.vstr info.title)
    | c0 :: _ =>
      match m.data.get? c0 with
      | some obj => info.get_value obj
      | none => Except.error PyError.indexError

/-- `ColumnDataModel.set_value`: `False` for the empty column path (after
resolving the row path), otherwise the row-info's `set_value` on
`self.data[column[0]]`.  Python mutates the object in place; here the
updated object replaces the original at its index. -/
def ColumnDataModel.set_value (m : ColumnDataModel) (row column : List Nat)
    (value : PyValue) : Except PyError (Bool × ColumnDataModel) :=
  match rowInfoObject m.row_info row with
  | none => Except.error PyError.indexError
  | some info =>
    match column with
    | [] => Except.ok (false, m)
    | c0 :: _ =>
      match m.data.get? c0 with
      | some obj =>
        match info.set_value obj value with
        | Except.ok (b, obj2) => Except.ok (b, { m with data := m.data.set c0 obj2 })
        | Except.error e => Except.error e
      | none => Except.error PyError.indexError

/-! ## `AbstractValueType` default methods (`abstract_value_type.py`)

The default implementations are written against any data model; they are
embedded generically over the model, row and column types. -/

/-- `DataViewSetError` (from `abstract_data_model.py`), carrying its
message. -/
inductive DataViewError where
  | dataViewSetError (msg : String)
  deriving DecidableEq, Repr

/-- The default `AbstractValueType.set_text`: unconditionally
`raise DataViewSetError("Cannot set value.")`. -/
def AbstractValueType.set_text {M R C : Type} (_model : M) (_row : R) (_column : C)
    (_text : String) : Except DataViewError Unit :=
  Except.error (DataViewError.dataViewSetError "Cannot set value.")

/-! ## The color dialog convenience function (`color_dialog.py`)

`ColorDialog` is `toolkit_object("color_dialog:ColorDialog")`: the concrete
dialog class lives in a toolkit backend that is not part of the included
sources, so `get_color` is embedded generically over the dialog type `D`, a
constructor `mk` standing for `ColorDialog(color=color)`, a state-passing
`openFn` standing for `dialog.open()` (result code and dialog state after
the call), and an accessor `colorOf` standing for `dialog.color`. -/

/-- Modelled from the spec: `pyface.constant.OK`, the dialog result code
that `get_color` compares `dialog.open()` against; the `constant` module is
not among the included sources.  Its identity is irrelevant to the claims:
only the comparison with `open`'s result is used. -/
def OK : String := "ok"

/-- `get_color(parent, color, show_alpha=False)`: build a dialog from
`color` alone, open it, and return the dialog's color when the result is
`OK`, else `None`. -/
def get_color {D Color : Type} (mk : Color → D) (openFn : D → String × D)
    (colorOf : D → Color) (_parent : PyValue) (color : Color)
    (_show_alpha : Bool) : Option Color :=
  let dialog := mk color
  let result := (openFn dialog).1
  let dialog2 := (openFn dialog).2
  if result = OK then some (colorOf dialog2) else none

end Pyface

namespace Pyface

/-! ## Helper lemmas about attribute access -/

theorem lookup_setAssoc (l : List (String × PyValue)) (k : String) (v : PyValue) :
    (setattrFn.setAssoc l k v).lookup k = some v := by
  induction l with
  | nil => simp [setattrFn.setAssoc, List.lookup]
  | cons p rest ih =>
    obtain ⟨k2, v2⟩ := p
    by_cases hk : k2 = k
    · subst hk
      simp [setattrFn.setAssoc, List.lookup]
    · have hbeq : (k == k2) = false := beq_eq_false_iff_ne.mpr (fun h => hk h.symm)
      simp [setattrFn.setAssoc, hk, List.lookup, ih, hbeq]

theorem setattrFn_eq_some (obj : PyValue) (n : String) (v obj2 : PyValue)
    (h : setattrFn obj n v = some obj2) :
    ∃ attrs, obj = PyValue.vobj attrs ∧ obj2 = PyValue.vobj (setattrFn.setAssoc attrs n v) := by
  cases obj <;> simp [setattrFn] at h
  case vobj attrs => exact ⟨attrs, rfl, h.symm⟩

theorem xsetattrGo_result_vobj (names : List String) (obj v obj2 : PyValue)
    (h : xsetattrGo obj names v = some obj2) : ∃ attrs, obj2 = PyValue.vobj attrs := by
  match names with
  | [] => simp [xsetattrGo] at h
  | [n] =>
    obtain ⟨attrs, -, h2⟩ := setattrFn_eq_some obj n v obj2 h
    exact ⟨_, h2⟩
  | n :: n2 :: rest =>
    simp only [xsetattrGo] at h
    cases hg : getattrOpt obj n with
    | none => rw [hg] at h; exact absurd h (by simp)
    | some inner =>
      rw [hg] at h
      have h2 : (match xsetattrGo inner (n2 :: rest) v with
        | none => none
        | some inner2 => setattrFn obj n inner2) = some obj2 := h
      cases hs : xsetattrGo inner (n2 :: rest) v with
      | none => rw [hs] at h2; exact absurd h2 (by simp)
      | some inner2 =>
        rw [hs] at h2
        obtain ⟨attrs, -, h3⟩ := setattrFn_eq_some obj n inner2 obj2 h2
        exact ⟨_, h3⟩

theorem xgetattrGo_of_xsetattrGo :
    ∀ (names : List String) (obj v obj2 d : PyValue),
      xsetattrGo obj names v = some obj2 → xgetattrGo obj2 names d = v
  | [], obj, v, obj2, d, h => by simp [xsetattrGo] at h
  | [n], obj, v, obj2, d, h => by
    obtain ⟨attrs, -, rfl⟩ := setattrFn_eq_some obj n v obj2 h
    simp [xgetattrGo, getattrOpt, lookup_setAssoc]
  | n :: n2 :: rest, obj, v, obj2, d, h => by
    simp only [xsetattrGo] at h
    cases hg : getattrOpt obj n with
    | none => rw [hg] at h; exact absurd h (by simp)
    | some inner =>
      rw [hg] at h
      have h2 : (match xsetattrGo inner (n2 :: rest) v with
        | none => none
        | some inner2 => setattrFn obj n inner2) = some obj2 := h
      cases hs : xsetattrGo inner (n2 :: rest) v with
      | none => rw [hs] at h2; exact absurd h2 (by simp)
      | some inner2 =>
        rw [hs] at h2
        obtain ⟨attrs, -, rfl⟩ := setattrFn_eq_some obj n inner2 obj2 h2
        obtain ⟨iattrs, rfl⟩ := xsetattrGo_result_vobj (n2 :: rest) inner v inner2 hs
        have ih := xgetattrGo_of_xsetattrGo (n2 :: rest) inner v _ d hs
        simp only [xgetattrGo, getattrOpt, lookup_setAssoc]
        exact ih

theorem getattrOpt_eq_some (obj : PyValue) (n : String) (w : PyValue)
    (h : getattrOpt obj n = some w) : ∃ attrs, obj = PyValue.vobj attrs := by
  cases obj <;> simp [getattrOpt] at h
  case vobj attrs => exact ⟨attrs, rfl⟩

theorem xsetattrGo_of_xgetattrGo_vdict :
    ∀ (names : List String) (obj : PyValue) (entries : List (String × PyValue)) (v2 : PyValue),
      xgetattrGo obj names PyValue.vnone = PyValue.vdict entries →
      ∃ obj2, xsetattrGo obj names v2 = some obj2
  | [], obj, entries, v2, h => by simp [xgetattrGo] at h
  | [n], obj, entries, v2, h => by
    simp only [xgetattrGo] at h
    cases hg : getattrOpt obj n with
    | none => rw [hg] at h; simp at h
    | some w =>
      obtain ⟨attrs, rfl⟩ := getattrOpt_eq_some obj n w hg
      exact ⟨_, rfl⟩
  | n :: n2 :: rest, obj, entries, v2, h => by
    simp only [xgetattrGo] at h
    cases hg : getattrOpt obj n with
    | none => rw [hg] at h; simp at h
    | some inner =>
      rw [hg] at h
      obtain ⟨attrs, rfl⟩ := getattrOpt_eq_some obj n inner hg
      cases inner with
      | vnone => simp at h
      | vstr s => simp at h; obtain ⟨inner2, hs⟩ := xsetattrGo_of_xgetattrGo_vdict (n2 :: rest) _ entries v2 h; exact ⟨PyValue.vobj (setattrFn.setAssoc attrs n inner2), by simp [xsetattrGo, hg, hs, setattrFn]⟩
      | vint k => simp at h; obtain ⟨inner2, hs⟩ := xsetattrGo_of_xgetattrGo_vdict (n2 :: rest) _ entries v2 h; exact ⟨PyValue.vobj (setattrFn.setAssoc attrs n inner2), by simp [xsetattrGo, hg, hs, setattrFn]⟩
      | vobj a2 => simp at h; obtain ⟨inner2, hs⟩ := xsetattrGo_of_xgetattrGo_vdict (n2 :: rest) _ entries v2 h; exact ⟨PyValue.vobj (setattrFn.setAssoc attrs n inner2), by simp [xsetattrGo, hg, hs, setattrFn]⟩
      | vdict e2 => simp at h; obtain ⟨inner2, hs⟩ := xsetattrGo_of_xgetattrGo_vdict (n2 :: rest) _ entries v2 h; exact ⟨PyValue.vobj (setattrFn.setAssoc attrs n inner2), by simp [xsetattrGo, hg, hs, setattrFn]⟩

end Pyface

namespace Pyface

/-! ## Claim theorems -/

/-- Claim C1 (code bug): the claim says that with no Qt binding in
`sys.modules`, `QT_API` unset, and none of PySide, PyQt5, PyQt4
importable, importing the shim raises `ImportError`.  The code intends
this (its comment reads "Or fail with ImportError." and it contains
`raise ImportError('Cannot import PySide, PyQt5 or PyQt4')`), but that
raise sits in a try-else that `break` and `continue` both skip, so it is
dead code: at exactly that input the shim completes normally with
`qt_api = None` and raises nothing. -/
theorem qtShim_no_backends_completes_without_import_error :
    qtShim ⟨[], none, fun _ => false⟩ = Except.ok none := rfl

/-- Claim C2: for a row path that is valid in the row-info tree,
`ColumnDataModel.get_value` returns the addressed row-info's title when
the column path is empty, and otherwise the row-info's `get_value`
applied to `data[column[0]]` (when that index is in range). -/
theorem get_value_title_or_lookup (m : ColumnDataModel) (r c : List Nat) (ri : RowInfo)
    (hr : rowInfoObject m.row_info r = some ri) :
    (c = [] → m.get_value r c = Except.ok (PyValue.vstr ri.title))
    ∧ (∀ c0 cs obj, c = c0 :: cs → m.data.get? c0 = some obj →
        m.get_value r c = ri.get_value obj) := by
  constructor
  · rintro rfl
    simp [ColumnDataModel.get_value, hr]
  · rintro c0 cs obj rfl hobj
    rw [List.get?_eq_getElem?] at hobj
    simp [ColumnDataModel.get_value, hr, hobj]

/-- Witness for C2: on a concrete two-level model both branches produce
the expected values. -/
theorem get_value_title_or_lookup_witness :
    ColumnDataModel.get_value
      ⟨[PyValue.vobj [("x", PyValue.vint 3)]],
        RowInfo.hasTraitsRow "root" [RowInfo.hasTraitsRow "child" [] "x"] ""⟩ [0] []
      = Except.ok (PyValue.vstr "child")
    ∧ ColumnDataModel.get_value
      ⟨[PyValue.vobj [("x", PyValue.vint 3)]],
        RowInfo.hasTraitsRow "root" [RowInfo.hasTraitsRow "child" [] "x"] ""⟩ [0] [0]
      = Except.ok (PyValue.vint 3) := by
  have h1 := (get_value_title_or_lookup
    ⟨[PyValue.vobj [("x", PyValue.vint 3)]],
      RowInfo.hasTraitsRow "root" [RowInfo.hasTraitsRow "child" [] "x"] ""⟩ [0] []
    (RowInfo.hasTraitsRow "child" [] "x") rfl).1 rfl
  have h2 := (get_value_title_or_lookup
    ⟨[PyValue.vobj [("x", PyValue.vint 3)]],
      RowInfo.hasTraitsRow "root" [RowInfo.hasTraitsRow "child" [] "x"] ""⟩ [0] [0]
    (RowInfo.hasTraitsRow "child" [] "x") rfl).2 0 []
    (PyValue.vobj [("x", PyValue.vint 3)]) rfl rfl
  exact ⟨h1, h2.trans rfl⟩

/-- Claim C3: the default `AbstractValueType.set_text` raises
`DataViewSetError("Cannot set value.")` for every model, row, column and
text; it never sets anything and never returns normally. -/
theorem set_text_default_always_raises {M R C : Type} (model : M) (row : R)
    (column : C) (text : String) :
    AbstractValueType.set_text model row column text =
      Except.error (DataViewError.dataViewSetError "Cannot set value.") := rfl

/-- Claim C4: for every valid row path and every value,
`ColumnDataModel.set_value` with an empty column path returns `False` and
leaves the model (in particular every object in `data`) unchanged. -/
theorem set_value_title_column_returns_false (m : ColumnDataModel) (r : List Nat)
    (ri : RowInfo) (v : PyValue) (hr : rowInfoObject m.row_info r = some ri) :
    m.set_value r [] v = Except.ok (false, m) := by
  simp [ColumnDataModel.set_value, hr]

/-- Witness for C4 at a concrete model. -/
theorem set_value_title_column_returns_false_witness :
    ColumnDataModel.set_value
      ⟨[PyValue.vobj []], RowInfo.hasTraitsRow "root" [] ""⟩ [] [] (PyValue.vint 1)
      = Except.ok (false, ⟨[PyValue.vobj []], RowInfo.hasTraitsRow "root" [] ""⟩) :=
  set_value_title_column_returns_false
    ⟨[PyValue.vobj []], RowInfo.hasTraitsRow "root" [] ""⟩ []
    (RowInfo.hasTraitsRow "root" [] "") (PyValue.vint 1) rfl

/-- Counterexample to claim C5 as stated: with the non-empty dotted value
name `"a.b"` and an object with no attribute `a`, `HasTraitsRowInfo.set_value`
raises `AttributeError` (from `xsetattr`) instead of setting the attribute
and returning `True`. -/
theorem hasTraitsRowInfo_dotted_set_raises_cex :
    RowInfo.set_value (RowInfo.hasTraitsRow "t" [] "a.b") (PyValue.vobj [])
      (PyValue.vint 1) = Except.error PyError.attributeError := rfl

/-- Claim C5, amended: `HasTraitsRowInfo.set_value` returns `False` and
leaves the object unchanged when the value trait name is empty; when the
name is non-empty and `xsetattr` resolves the (possibly dotted) attribute
path it sets that attribute (which then reads back as the new value) and
returns `True`; when an intermediate attribute of a dotted path is missing
it raises `AttributeError` instead of returning; and `can_set_value`
returns `True` exactly when the value trait name is non-empty. -/
theorem hasTraitsRowInfo_set_value_amended (t : String) (rs : List RowInfo)
    (name : String) (obj v : PyValue) :
    (name = "" → RowInfo.set_value (RowInfo.hasTraitsRow t rs name) obj v
        = Except.ok (false, obj))
    ∧ (∀ obj2, name ≠ "" → xsetattr obj name v = some obj2 →
        RowInfo.set_value (RowInfo.hasTraitsRow t rs name) obj v = Except.ok (true, obj2)
        ∧ ∀ d, xgetattr obj2 name d = v)
    ∧ (name ≠ "" → xsetattr obj name v = none →
        RowInfo.set_value (RowInfo.hasTraitsRow t rs name) obj v
          = Except.error PyError.attributeError)
    ∧ RowInfo.can_set_value (RowInfo.hasTraitsRow t rs name) obj = decide (name ≠ "") := by
  refine ⟨?_, ?_, ?_, ?_⟩
  · rintro rfl
    simp [RowInfo.set_value]
  · intro obj2 hne hset
    exact ⟨by simp [RowInfo.set_value, hne, hset],
      fun d => xgetattrGo_of_xsetattrGo _ obj v obj2 d hset⟩
  · intro hne hset
    simp [RowInfo.set_value, hne, hset]
  · simp [RowInfo.can_set_value]

/-- Witness for the amended C5: a successful set on a concrete object, and
the attribute reading back. -/
theorem hasTraitsRowInfo_set_value_amended_witness :
    RowInfo.set_value (RowInfo.hasTraitsRow "t" [] "a") (PyValue.vobj [])
      (PyValue.vint 1) = Except.ok (true, PyValue.vobj [("a", PyValue.vint 1)])
    ∧ xgetattr (PyValue.vobj [("a", PyValue.vint 1)]) "a" PyValue.vnone
      = PyValue.vint 1 := by
  have h := (hasTraitsRowInfo_set_value_amended "t" [] "a" (PyValue.vobj [])
    (PyValue.vint 1)).2.1 (PyValue.vobj [("a", PyValue.vint 1)]) (by decide) rfl
  exact ⟨h.1, h.2 PyValue.vnone⟩

/-- Claim C6: the selection precedence of the shim.  A module already in
`sys.modules` wins regardless of `QT_API` (and of importability); otherwise
a valid `QT_API` value is taken as-is, for any importability (so no module
is imported); only when both are absent are the candidates tried, in the
order given by `QtAPIs` (PySide, PyQt5, PyQt4). -/
theorem qtShim_selection_precedence (m : List String) (e : Option String)
    (imp : String → Bool) :
    (∀ p, QtAPIs.find? (fun q => m.contains q.2) = some p →
      qtShim ⟨m, e, imp⟩ = Except.ok (some p.1))
    ∧ (∀ v, QtAPIs.find? (fun q => m.contains q.2) = none → e = some v →
        v ∈ ["pyside", "pyqt5", "pyqt"] →
        qtShim ⟨m, e, imp⟩ = Except.ok (some v))
    ∧ (QtAPIs.find? (fun q => m.contains q.2) = none → e = none →
        qtShim ⟨m, e, imp⟩ =
          Except.ok ((QtAPIs.find? (fun q => imp q.2)).map Prod.fst)) := by
  refine ⟨?_, ?_, ?_⟩
  · intro p hp
    have hmem : p ∈ QtAPIs := List.mem_of_find?_eq_some hp
    simp only [qtShim, hp]
    fin_cases hmem <;> rfl
  · intro v hp he hv
    subst he
    simp only [qtShim, hp]
    fin_cases hv <;> rfl
  · intro hp he
    subst he
    simp only [qtShim, hp]

/-- Witness for C6: with PyQt5 already loaded, the environment preference
for pyqt is ignored and pyqt5 is chosen. -/
theorem qtShim_selection_precedence_witness :
    qtShim ⟨["PyQt5"], some "pyqt", fun _ => false⟩ = Except.ok (some "pyqt5") :=
  (qtShim_selection_precedence ["PyQt5"] (some "pyqt") (fun _ => false)).1
    ("pyqt5", "PyQt5") rfl

/-- Claim C7: for a valid non-empty row path, `can_have_children` is true
exactly when `get_row_count` is non-zero; for the empty row path it is
true unconditionally. -/
theorem can_have_children_iff_row_count (m : ColumnDataModel) (r : List Nat)
    (ri : RowInfo) (hr : rowInfoObject m.row_info r = some ri) :
    (r = [] → m.can_have_children r = Except.ok true)
    ∧ (r ≠ [] → (m.can_have_children r = Except.ok true ↔
        m.get_row_count r ≠ Except.ok 0)) := by
  constructor
  · rintro rfl
    simp [ColumnDataModel.can_have_children]
  · intro hne
    have hlen : ¬ r.length = 0 := fun h => hne (List.length_eq_zero.mp h)
    simp [ColumnDataModel.can_have_children, ColumnDataModel.get_row_count, hr, hlen]

/-- Witness for C7: a concrete row with one child, and the root row. -/
theorem can_have_children_iff_row_count_witness :
    ColumnDataModel.can_have_children
      ⟨[], RowInfo.hasTraitsRow "r"
        [RowInfo.hasTraitsRow "a" [RowInfo.hasTraitsRow "b" [] ""] ""] ""⟩ [0]
      = Except.ok true
    ∧ ColumnDataModel.can_have_children
      ⟨[], RowInfo.hasTraitsRow "r"
        [RowInfo.hasTraitsRow "a" [RowInfo.hasTraitsRow "b" [] ""] ""] ""⟩ []
      = Except.ok true := by
  constructor
  · exact ((can_have_children_iff_row_count
      ⟨[], RowInfo.hasTraitsRow "r"
        [RowInfo.hasTraitsRow "a" [RowInfo.hasTraitsRow "b" [] ""] ""] ""⟩ [0]
      (RowInfo.hasTraitsRow "a" [RowInfo.hasTraitsRow "b" [] ""] "") rfl).2
      (by simp)).mpr
      (fun h => Nat.one_ne_zero (Except.ok.inj h))
  · exact (can_have_children_iff_row_count
      ⟨[], RowInfo.hasTraitsRow "r"
        [RowInfo.hasTraitsRow "a" [RowInfo.hasTraitsRow "b" [] ""] ""] ""⟩ []
      (RowInfo.hasTraitsRow "r"
        [RowInfo.hasTraitsRow "a" [RowInfo.hasTraitsRow "b" [] ""] ""] "") rfl).1 rfl

/-- Claim C8: with no Qt binding loaded and `QT_API` set to a value outside
the three valid names, the shim raises `RuntimeError` (not `ImportError`),
for every importability of the backends (no backend import is attempted). -/
theorem qtShim_invalid_qt_api (m : List String) (imp : String → Bool) (v : String)
    (hp : QtAPIs.find? (fun q => m.contains q.2) = none)
    (hv : v ∉ ["pyside", "pyqt5", "pyqt"]) :
    qtShim ⟨m, some v, imp⟩ = Except.error (ShimError.runtimeError
      ("Invalid Qt API " ++ v ++ ", valid values are: pyside, pyqt or pyqt5")) := by
  simp only [qtShim, hp]
  have hmem : v ∉ QtAPIs.map Prod.fst := by simpa [QtAPIs] using hv
  have hc : (QtAPIs.map Prod.fst).contains v = false :=
    Bool.eq_false_iff.mpr (fun h => hmem (List.elem_iff.mp h))
  rw [hc]
  simp

/-- Witness for C8 at the concrete invalid value "foo". -/
theorem qtShim_invalid_qt_api_witness :
    qtShim ⟨[], some "foo", fun _ => true⟩ = Except.error (ShimError.runtimeError
      "Invalid Qt API foo, valid values are: pyside, pyqt or pyqt5") :=
  qtShim_invalid_qt_api [] (fun _ => true) "foo" rfl (by decide)

/-- Claim C9: `get_color` builds the dialog from the color argument only —
the parent and show-alpha arguments never influence the result — and it
returns the dialog's color exactly when `open()` returns `OK`, else
`None`. -/
theorem get_color_dialog_from_color_only {D Color : Type} (mk : Color → D)
    (openFn : D → String × D) (colorOf : D → Color) (p p2 : PyValue) (c : Color)
    (a a2 : Bool) :
    get_color mk openFn colorOf p c a = get_color mk openFn colorOf p2 c a2
    ∧ get_color mk openFn colorOf p c a =
        (if (openFn (mk c)).1 = OK then some (colorOf ((openFn (mk c)).2)) else none) :=
  ⟨rfl, rfl⟩

/-- Counterexample to claim C10 as stated: with the empty value trait name
(where `can_set_value` is `False`), `DictRowInfo.set_value` does not return
`True` — the lookup yields `None` and the item assignment raises
`TypeError`. -/
theorem dictRowInfo_set_value_empty_value_raises_cex :
    RowInfo.set_value (RowInfo.dictRow "t" [] "" "k") (PyValue.vobj [])
      (PyValue.vint 1) = Except.error PyError.typeError := rfl

/-- Claim C10, amended: `DictRowInfo.set_value` never consults
`can_set_value` and never returns `False`: whenever the value-trait lookup
on the object yields a dictionary, the key is stored (and reads back) and
`True` is returned, and the write-back along the path cannot fail; when
the lookup yields anything else — in particular when the value trait name
is the empty string, where `can_set_value` returns `False` — it raises
`TypeError` rather than returning.  So its boolean success signal can
disagree with `can_set_value` only by raising, never by returning `True`
where the claim said. -/
theorem dictRowInfo_set_value_amended (t : String) (rs : List RowInfo)
    (value key : String) (obj v : PyValue) :
    (∀ b obj2, RowInfo.set_value (RowInfo.dictRow t rs value key) obj v
        = Except.ok (b, obj2) → b = true)
    ∧ (∀ entries, xgetattr obj value PyValue.vnone = PyValue.vdict entries →
        ∃ obj2, xsetattr obj value (PyValue.vdict (setattrFn.setAssoc entries key v))
          = some obj2)
    ∧ (∀ entries obj2, xgetattr obj value PyValue.vnone = PyValue.vdict entries →
        xsetattr obj value (PyValue.vdict (setattrFn.setAssoc entries key v)) = some obj2 →
        RowInfo.set_value (RowInfo.dictRow t rs value key) obj v = Except.ok (true, obj2)
        ∧ xgetattr obj2 value PyValue.vnone
            = PyValue.vdict (setattrFn.setAssoc entries key v)
        ∧ (setattrFn.setAssoc entries key v).lookup key = some v)
    ∧ ((∀ entries, xgetattr obj value PyValue.vnone ≠ PyValue.vdict entries) →
        RowInfo.set_value (RowInfo.dictRow t rs value key) obj v
          = Except.error PyError.typeError)
    ∧ (value = "" → RowInfo.can_set_value (RowInfo.dictRow t rs value key) obj = false) := by
  refine ⟨?_, ?_, ?_, ?_, ?_⟩
  · intro b obj2 h
    simp only [RowInfo.set_value] at h
    cases hx : xgetattr obj value PyValue.vnone <;> rw [hx] at h <;> try simp at h
    case vdict entries =>
      cases hs : xsetattr obj value (PyValue.vdict (setattrFn.setAssoc entries key v)) <;>
        rw [hs] at h <;> simp at h
      exact h.1
  · intro entries hx
    exact xsetattrGo_of_xgetattrGo_vdict (splitName value) obj entries
      (PyValue.vdict (setattrFn.setAssoc entries key v)) hx
  · intro entries obj2 hx hs
    exact ⟨by simp [RowInfo.set_value, hx, hs],
      xgetattrGo_of_xsetattrGo _ obj _ obj2 PyValue.vnone hs,
      lookup_setAssoc entries key v⟩
  · intro hnd
    cases hx : xgetattr obj value PyValue.vnone
    case vdict entries => exact absurd hx (hnd entries)
    all_goals rw [show RowInfo.set_value (RowInfo.dictRow t rs value key) obj v
      = (match xgetattr obj value PyValue.vnone with
         | PyValue.vdict entries =>
           match xsetattr obj value (PyValue.vdict (setattrFn.setAssoc entries key v)) with
           | some obj2 => Except.ok (true, obj2)
           | none => Except.error PyError.attributeError
         | _ => Except.error PyError.typeError) from rfl, hx]
  · rintro rfl
    rfl

/-- Witness for the amended C10: a successful keyed store on a concrete
object holding a dictionary, and `can_set_value` false at the empty value
name. -/
theorem dictRowInfo_set_value_amended_witness :
    RowInfo.set_value (RowInfo.dictRow "t" [] "d" "k")
      (PyValue.vobj [("d", PyValue.vdict [])]) (PyValue.vint 1)
      = Except.ok (true, PyValue.vobj [("d", PyValue.vdict [("k", PyValue.vint 1)])])
    ∧ RowInfo.can_set_value (RowInfo.dictRow "t" [] "" "k") (PyValue.vobj []) = false := by
  have h := (dictRowInfo_set_value_amended "t" [] "d" "k"
    (PyValue.vobj [("d", PyValue.vdict [])]) (PyValue.vint 1)).2.2.1
    [] (PyValue.vobj [("d", PyValue.vdict [("k", PyValue.vint 1)])]) rfl rfl
  have h5 := (dictRowInfo_set_value_amended "t" [] "" "k" (PyValue.vobj [])
    (PyValue.vint 1)).2.2.2.2 rfl
  exact ⟨h.1, h5⟩

end Pyface
